import Mathlib

/-!
# Verification of the roomba-player control/estimation core

Shallow embedding of the repository's Python sources:

* `src/roomba_player/roomba.py`  — the Open Interface driver (`RoombaOI`):
  command encoding, sensor-stream framing, per-packet telemetry updates;
* `src/roomba_player/ws.py`      — the control dispatcher's bumper guard;
* `src/roomba_player/odometry.py` — the dead-reckoning estimator with
  collision clamping (`OdometryEstimator`).

Integer/byte-level code is embedded computably over `Nat`/`Int`; the
floating-point odometry is embedded over `ℝ` (exact real arithmetic), with
Python's float `%` modelled as the exact real operation
`a - m * ⌊a / m⌋`, and `math.hypot`/`math.sqrt` as `Real.sqrt`.
-/

/-! ## Driver state: the telemetry dictionary of `RoombaOI.__init__`

The `timestamp` string (wall-clock time) and the serial handle are not
modelled; every other key of `self._telemetry` is a field here. -/

structure Telemetry where
  batteryPct : Nat
  state : String
  bumper : Bool
  bumpLeft : Bool
  bumpRight : Bool
  wheelDropLeft : Bool
  wheelDropRight : Bool
  wheelDropCaster : Bool
  wallSeen : Bool
  cliffLeft : Bool
  cliffFrontLeft : Bool
  cliffFrontRight : Bool
  cliffRight : Bool
  dockVisible : Bool
  chargingSourceHomeBase : Bool
  chargingSourceInternal : Bool
  roombaConnected : Bool
  batteryChargeMah : Nat
  batteryCapacityMah : Nat
  chargingStateCode : Nat
  distanceMm : Int
  angleDeg : Int
  totalDistanceMm : Int
  totalAngleDeg : Int
  leftEncoderCounts : Nat
  rightEncoderCounts : Nat
deriving DecidableEq, Repr

/-- Initial telemetry dictionary from `RoombaOI.__init__`. -/
def initTelemetry : Telemetry where
  batteryPct := 0
  state := "disconnected"
  bumper := false
  bumpLeft := false
  bumpRight := false
  wheelDropLeft := false
  wheelDropRight := false
  wheelDropCaster := false
  wallSeen := false
  cliffLeft := false
  cliffFrontLeft := false
  cliffFrontRight := false
  cliffRight := false
  dockVisible := false
  chargingSourceHomeBase := false
  chargingSourceInternal := false
  roombaConnected := false
  batteryChargeMah := 0
  batteryCapacityMah := 0
  chargingStateCode := 0
  distanceMm := 0
  angleDeg := 0
  totalDistanceMm := 0
  totalAngleDeg := 0
  leftEncoderCounts := 0
  rightEncoderCounts := 0

/-- `_PACKET_SIZE` table from `roomba.py`. -/
def packetSize : Nat → Option Nat
  | 7 => some 1
  | 8 => some 1
  | 9 => some 1
  | 10 => some 1
  | 11 => some 1
  | 12 => some 1
  | 19 => some 2
  | 20 => some 2
  | 21 => some 1
  | 25 => some 2
  | 26 => some 2
  | 34 => some 1
  | 43 => some 2
  | 44 => some 2
  | _ => none

/-- `_CHARGING_STATE` lookup with the `unknown_{code}` fallback used at
packet 21. -/
def chargingStateName : Nat → String
  | 0 => "not_charging"
  | 1 => "reconditioning"
  | 2 => "full_charging"
  | 3 => "trickle_charging"
  | 4 => "waiting"
  | 5 => "charging_fault"
  | c => "unknown_" ++ toString c

/-- `int.from_bytes(data, "big", signed=False)` for a two-byte field;
out-of-range reads default to 0 (the caller guarantees the size). -/
def beU16 (data : List Nat) : Nat :=
  256 * data.getD 0 0 + data.getD 1 0

/-- `int.from_bytes(data, "big", signed=True)` for a two-byte field. -/
def beS16 (data : List Nat) : Int :=
  let v := beU16 data
  if v ≥ 32768 then (v : Int) - 65536 else (v : Int)

/-- `_int16_bytes(value)` from `roomba.py`: two's-complement big-endian
16-bit encoding.  Python's `>>` on ints is arithmetic shift, i.e. floor
division, and `& 0xFF` is `% 256` (Euclidean). -/
def int16Bytes (value : Int) : List Int :=
  let v := if value < 0 then value + 65536 else value
  [(v.fdiv 256) % 256, v % 256]

/-- `RoombaOI.drive(velocity, radius)`: the bytes written to the serial
link.  `_CMD_DRIVE = 137`, `_RADIUS_STRAIGHT = 32768`,
`_RADIUS_INPLACE_CW = -1`, `_RADIUS_INPLACE_CCW = 1`. -/
def driveCommand (velocity radius : Int) : List Int :=
  let v := max (-500) (min 500 velocity)
  let r := if radius = 32768 ∨ radius = -1 ∨ radius = 1 then radius
           else max (-2000) (min 2000 radius)
  137 :: (int16Bytes v ++ int16Bytes r)

/-- The per-packet-id field update of `RoombaOI._apply_sensor_packet`
(everything before the battery-percentage recomputation). -/
def applyPacketField (packetId : Nat) (data : List Nat) (t : Telemetry) :
    Telemetry :=
  if packetId = 7 then
    let bits := data.getD 0 0
    let bumpRight := bits.testBit 0
    let bumpLeft := bits.testBit 1
    { t with
      bumpLeft := bumpLeft
      bumpRight := bumpRight
      wheelDropRight := bits.testBit 2
      wheelDropLeft := bits.testBit 3
      wheelDropCaster := bits.testBit 4
      bumper := bumpLeft || bumpRight }
  else if packetId = 8 then { t with wallSeen := data.getD 0 0 ≠ 0 }
  else if packetId = 9 then { t with cliffLeft := data.getD 0 0 ≠ 0 }
  else if packetId = 10 then { t with cliffFrontLeft := data.getD 0 0 ≠ 0 }
  else if packetId = 11 then { t with cliffFrontRight := data.getD 0 0 ≠ 0 }
  else if packetId = 12 then { t with cliffRight := data.getD 0 0 ≠ 0 }
  else if packetId = 19 then
    let d := beS16 data
    { t with distanceMm := d, totalDistanceMm := t.totalDistanceMm + d }
  else if packetId = 20 then
    let a := beS16 data
    { t with angleDeg := a, totalAngleDeg := t.totalAngleDeg + a }
  else if packetId = 21 then
    let code := data.getD 0 0
    { t with chargingStateCode := code, state := chargingStateName code }
  else if packetId = 25 then { t with batteryChargeMah := beU16 data }
  else if packetId = 26 then { t with batteryCapacityMah := beU16 data }
  else if packetId = 34 then
    let bits := data.getD 0 0
    { t with
      chargingSourceInternal := bits.testBit 0
      chargingSourceHomeBase := bits.testBit 1
      dockVisible := bits.testBit 1 }
  else if packetId = 43 then { t with leftEncoderCounts := beU16 data }
  else if packetId = 44 then { t with rightEncoderCounts := beU16 data }
  else t

/-- The unconditional battery-percentage recomputation at the end of
`RoombaOI._apply_sensor_packet`: `int((charge * 100) / capacity)`
truncates the (always non-negative) float quotient, which coincides with
`Nat` floor division here. -/
def batteryRecompute (t : Telemetry) : Telemetry :=
  if 0 < t.batteryCapacityMah then
    let pct := max 0 (min 100 (t.batteryChargeMah * 100 / t.batteryCapacityMah))
    { t with batteryPct := pct }
  else t

/-- `RoombaOI._apply_sensor_packet(packet_id, data)`.  The whole method
body runs under `self._telemetry_lock`; it only mutates the telemetry
dictionary and writes nothing to the serial link. -/
def applySensorPacket (packetId : Nat) (data : List Nat) (t : Telemetry) :
    Telemetry :=
  batteryRecompute (applyPacketField packetId data t)

/-- The `(packet_id, data)` pairs that the `while i < len(payload)` loop
of `RoombaOI._apply_stream_payload` decodes: parsing stops at an unknown
id or a truncated field.  The fuel argument makes the recursion
structural; every step consumes at least one byte, so fuel equal to the
payload length (as passed by `parsePackets`) is never exhausted. -/
def parsePacketsAux : Nat → List Nat → List (Nat × List Nat)
  | 0, _ => []
  | _, [] => []
  | fuel + 1, packetId :: rest =>
    match packetSize packetId with
    | none => []
    | some size =>
      if rest.length < size then []
      else (packetId, rest.take size) :: parsePacketsAux fuel (rest.drop size)

/-- The packet list decoded from one frame payload. -/
def parsePackets (payload : List Nat) : List (Nat × List Nat) :=
  parsePacketsAux payload.length payload

/-- The byte-consuming loop of `RoombaOI._apply_stream_payload`, with
the same structural fuel as `parsePacketsAux`. -/
def applyStreamPayloadAux : Nat → List Nat → Telemetry → Telemetry
  | 0, _, t => t
  | _, [], t => t
  | fuel + 1, packetId :: rest, t =>
    match packetSize packetId with
    | none => t
    | some size =>
      if rest.length < size then t
      else applyStreamPayloadAux fuel (rest.drop size)
        (applySensorPacket packetId (rest.take size) t)

/-- `RoombaOI._apply_stream_payload(payload)` (the sensor-packet part;
the trailing `timestamp` refresh is not modelled). -/
def applyStreamPayload (payload : List Nat) (t : Telemetry) : Telemetry :=
  applyStreamPayloadAux payload.length payload t

/-- The states of the telemetry dictionary that a concurrent
`get_telemetry_snapshot` caller can observe while one frame is applied:
`_apply_sensor_packet` acquires and releases `self._telemetry_lock` once
per packet, and the snapshot copy also runs under that lock, so a reader
serializes exactly at packet boundaries and sees the state after some
prefix of the frame's packets. -/
def observableStates (payload : List Nat) (t : Telemetry) : List Telemetry :=
  (parsePackets payload).scanl (fun s pk => applySensorPacket pk.1 pk.2 s) t

/-- `RoombaOI._consume_stream_buffer`: processes the byte buffer,
returning the final telemetry and the unconsumed remainder of the buffer.
`_STREAM_HEADER = 19`. -/
def consumeStreamBuffer : List Nat → Telemetry → Telemetry × List Nat
  | b0 :: b1 :: b2 :: tl, t =>
    if b0 ≠ 19 then consumeStreamBuffer (b1 :: b2 :: tl) t
    else
      let frameLen := b1 + 3
      if (b0 :: b1 :: b2 :: tl).length < frameLen then (t, b0 :: b1 :: b2 :: tl)
      else
        let frame := (b0 :: b1 :: b2 :: tl).take frameLen
        if frame.sum % 256 ≠ 0 then
          consumeStreamBuffer ((b0 :: b1 :: b2 :: tl).drop frameLen) t
        else
          consumeStreamBuffer ((b0 :: b1 :: b2 :: tl).drop frameLen)
            (applyStreamPayload ((frame.drop 2).dropLast) t)
  | buf, t => (t, buf)
termination_by buf _ => buf.length
decreasing_by
  · simp only [List.length_cons]
    omega
  · simp only [List.length_drop, List.length_cons]
    omega
  · simp only [List.length_drop, List.length_cons]
    omega

/-! ## Control dispatcher: the bumper guard of `ws.py` -/

/-- `_guard_drive_with_bumpers(roomba, velocity, radius)`; the two bump
flags are the ones read from the driver's telemetry snapshot. -/
def guardDrive (bumpLeft bumpRight : Bool) (velocity radius : Int) :
    Int × Int × Option String :=
  if bumpLeft && bumpRight then
    if velocity < 0 then (velocity, radius, none)
    else (0, 32768, some "both_bumpers_block_forward")
  else if bumpLeft then
    if velocity < 0 then (velocity, radius, none)
    else if radius = -1 then (velocity, radius, none)
    else (0, 32768, some "left_bumper_block_forward")
  else if bumpRight then
    if velocity < 0 then (velocity, radius, none)
    else if radius = 1 then (velocity, radius, none)
    else (0, 32768, some "right_bumper_block_forward")
  else (velocity, radius, none)

/-- The dispatcher guard exactly as the specification sentences describe
it (claim C7), written independently of `guardDrive`: both bumpers —
negative velocity passes, otherwise `(0, straight)` with reason
`both_bumpers_block_forward`; only left — negative velocity passes,
rotate-clockwise-in-place radius (−1) passes, otherwise `(0, straight)`
with reason `left_bumper_block_forward`; symmetrically for the right
bumper (its in-place special value being 1); no bumper — pass through. -/
def guardSpec (bumpLeft bumpRight : Bool) (velocity radius : Int) :
    Int × Int × Option String :=
  match bumpLeft, bumpRight with
  | true, true =>
    if velocity < 0 then (velocity, radius, none)
    else (0, 32768, some "both_bumpers_block_forward")
  | true, false =>
    if velocity < 0 ∨ radius = -1 then (velocity, radius, none)
    else (0, 32768, some "left_bumper_block_forward")
  | false, true =>
    if velocity < 0 ∨ radius = 1 then (velocity, radius, none)
    else (0, 32768, some "right_bumper_block_forward")
  | false, false => (velocity, radius, none)

/-! ## Odometry estimator (`odometry.py`), over exact reals

Python floats are modelled by `ℝ`; `math.hypot`/`sqrt` by `Real.sqrt`;
the float `%` (whose result takes the divisor's sign) by
`a - m * ⌊a / m⌋`.  Comparisons become classical (the source code's
branches on floats), so this part of the development is noncomputable. -/

noncomputable section

open Classical

/-- Python float `a % m` for `m > 0`: `a - m * ⌊a / m⌋`. -/
def pymod (a m : ℝ) : ℝ := a - m * ⌊a / m⌋

/-- The normalization `(θ + π) % (2π) − π` applied to `self._theta_rad`
by `update_from_telemetry` and `apply_external_pose`. -/
def normAngle (t : ℝ) : ℝ := pymod (t + Real.pi) (2 * Real.pi) - Real.pi

/-- `math.radians`. -/
def radians (d : ℝ) : ℝ := d * (Real.pi / 180)

/-- `math.degrees`. -/
def degrees (r : ℝ) : ℝ := r * (180 / Real.pi)

/-- `math.hypot`. -/
def hypot (a b : ℝ) : ℝ := Real.sqrt (a ^ 2 + b ^ 2)

/-- `_EPSILON = 1e-6`. -/
def epsilonMm : ℝ := 1 / 1000000

/-- Mutable state of `OdometryEstimator` (history sink not modelled;
the collision plan is stored already normalized, as installed by
`set_collision_plan`). -/
structure OdomState where
  x : ℝ
  y : ℝ
  theta : ℝ
  lastTotalDistance : Option ℝ
  lastTotalAngle : Option ℝ
  lastLeft : Option ℤ
  lastRight : Option ℤ
  lastDeltaDistance : ℝ
  lastDeltaAngle : ℝ
  source : String
  mmPerTick : ℝ
  linearScale : ℝ
  angularScale : ℝ
  roomContour : List (ℝ × ℝ)
  obstaclePolygons : List (List (ℝ × ℝ))
  robotRadius : ℝ

/-- The closed-polygon edge list `(polygon[i], polygon[(i+1) % n])`. -/
def edgePairs (poly : List (ℝ × ℝ)) : List ((ℝ × ℝ) × (ℝ × ℝ)) :=
  poly.zip (poly.rotate 1)

/-- Minimum of a list of reals (the `best = min(best, …)` accumulation
of the source, whose `inf` start is only observable on an empty edge
list — unreachable for the polygons stored by `set_collision_plan`). -/
def minList : List ℝ → ℝ
  | [] => 0
  | v :: vs => vs.foldl min v

/-- `OdometryEstimator._distance_point_segment`. -/
def segDist (p a b : ℝ × ℝ) : ℝ :=
  let abx := b.1 - a.1
  let aby := b.2 - a.2
  let den := abx * abx + aby * aby
  if den ≤ epsilonMm then hypot (p.1 - a.1) (p.2 - a.2)
  else
    let t := max 0 (min 1 (((p.1 - a.1) * abx + (p.2 - a.2) * aby) / den))
    hypot (p.1 - (a.1 + t * abx)) (p.2 - (a.2 + t * aby))

/-- `OdometryEstimator._distance_point_to_polygon_edges`.  The source
returns `+inf` for a polygon with fewer than two points; that branch is
unreachable for stored plans (contours are kept only with ≥ 3 vertices)
and is represented by `0` here. -/
def distToPolyEdges (p : ℝ × ℝ) (poly : List (ℝ × ℝ)) : ℝ :=
  if poly.length < 2 then 0
  else minList ((edgePairs poly).map fun e => segDist p e.1 e.2)

/-- `OdometryEstimator._point_on_segment` (collinear-on-edge test with
a `1e-3` cross-product tolerance). -/
def pointOnSegment (p a b : ℝ × ℝ) : Bool :=
  let abx := b.1 - a.1
  let aby := b.2 - a.2
  let apx := p.1 - a.1
  let apy := p.2 - a.2
  if |abx * apy - aby * apx| > 1 / 1000 then false
  else
    let dot := apx * abx + apy * aby
    if dot < -epsilonMm then false
    else if dot - (abx * abx + aby * aby) > epsilonMm then false
    else true

/-- The crossing-number loop of `OdometryEstimator._point_in_polygon`,
with the on-edge fast path returning `true` immediately. -/
def pipAux (p : ℝ × ℝ) : List ((ℝ × ℝ) × (ℝ × ℝ)) → Bool → Bool
  | [], inside => inside
  | (a, b) :: rest, inside =>
    if pointOnSegment p a b then true
    else
      let intersects := (decide (a.2 > p.2) != decide (b.2 > p.2)) &&
        decide (p.1 < (b.1 - a.1) * (p.2 - a.2) / ((b.2 - a.2) + epsilonMm) + a.1)
      pipAux p rest (if intersects then !inside else inside)

/-- `OdometryEstimator._point_in_polygon`. -/
def pointInPolygon (p : ℝ × ℝ) (poly : List (ℝ × ℝ)) : Bool :=
  if poly.length < 3 then false
  else pipAux p (edgePairs poly) false

/-- `OdometryEstimator._pose_clearance_mm`.  The source returns `+inf`
when no room contour is installed; all uses below are guarded by
`len(contour) ≥ 3`, and that branch is represented by `0`. -/
def poseClearance (st : OdomState) (p : ℝ × ℝ) : ℝ :=
  if st.roomContour.length < 3 then 0
  else
    let roomEdge := distToPolyEdges p st.roomContour
    let base := if pointInPolygon p st.roomContour
                then roomEdge - st.robotRadius else -roomEdge
    st.obstaclePolygons.foldl (fun clearance poly =>
      let obsEdge := distToPolyEdges p poly
      let obsClear := if pointInPolygon p poly
                      then -obsEdge else obsEdge - st.robotRadius
      min clearance obsClear) base

/-- `OdometryEstimator._is_pose_valid`. -/
def isPoseValid (st : OdomState) (p : ℝ × ℝ) : Bool :=
  decide (0 ≤ poseClearance st p)

/-- `OdometryEstimator._accept_clearance` (`_CLEARANCE_TOL_MM = 2.0`). -/
def acceptClearance (startClearance candidateClearance : ℝ) : Bool :=
  if 0 ≤ startClearance then decide (0 ≤ candidateClearance)
  else decide (startClearance - 2 ≤ candidateClearance)

/-- `OdometryEstimator._closest_edge_segment`: first edge attaining the
minimal distance (Python keeps the incumbent on ties). -/
def closestEdgeSegment (p : ℝ × ℝ) (poly : List (ℝ × ℝ)) :
    Option ((ℝ × ℝ) × (ℝ × ℝ) × ℝ) :=
  if poly.length < 2 then none
  else
    (edgePairs poly).foldl (fun best e =>
      let d := segDist p e.1 e.2
      match best with
      | none => some (e.1, e.2, d)
      | some b => if d < b.2.2 then some (e.1, e.2, d) else some b) none

/-- `OdometryEstimator._nearest_collision_edge`. -/
def nearestCollisionEdge (st : OdomState) (p : ℝ × ℝ) :
    Option ((ℝ × ℝ) × (ℝ × ℝ)) :=
  let roomCands : List ((ℝ × ℝ) × (ℝ × ℝ) × ℝ) :=
    match closestEdgeSegment p st.roomContour with
    | none => []
    | some e =>
      if !pointInPolygon p st.roomContour ∨ e.2.2 < st.robotRadius
      then [e] else []
  let cands := st.obstaclePolygons.foldl (fun acc poly =>
    match closestEdgeSegment p poly with
    | none => acc
    | some e =>
      if pointInPolygon p poly ∨ e.2.2 < st.robotRadius
      then acc ++ [e] else acc) roomCands
  match cands with
  | [] => none
  | c :: cs =>
    let best := cs.foldl (fun b e => if e.2.2 < b.2.2 then e else b) c
    some (best.1, best.2.1)

/-- The `for scale in (1.0, 0.7, 0.45, 0.25)` search at the end of
`OdometryEstimator._try_slide_step_locked`. -/
def slideScales (st : OdomState) (base : ℝ × ℝ)
    (startClear tx ty tangentStep : ℝ) : List ℝ → Option (ℝ × ℝ)
  | [] => none
  | scale :: rest =>
    let move := tangentStep * scale
    let candDx := tx * move
    let candDy := ty * move
    let clearance := poseClearance st (base.1 + candDx, base.2 + candDy)
    if acceptClearance startClear clearance then some (candDx, candDy)
    else slideScales st base startClear tx ty tangentStep rest

/-- `OdometryEstimator._try_slide_step_locked`. -/
def trySlideStep (st : OdomState) (base step probe : ℝ × ℝ)
    (startClear : ℝ) : Option (ℝ × ℝ) :=
  let edge := match nearestCollisionEdge st probe with
              | some e => some e
              | none => nearestCollisionEdge st base
  match edge with
  | none => none
  | some (a, b) =>
    let ex := b.1 - a.1
    let ey := b.2 - a.2
    let norm := hypot ex ey
    if norm ≤ epsilonMm then none
    else
      let tx := ex / norm
      let ty := ey / norm
      let tangentStep := step.1 * tx + step.2 * ty
      if |tangentStep| ≤ epsilonMm then none
      else slideScales st base startClear tx ty tangentStep
        [1, 7/10, 45/100, 25/100]

/-- The `while remaining > _EPSILON` loop of
`OdometryEstimator._clamp_translation_locked`, with explicit fuel.  The
loop variable `start_clearance` always equals the clearance of the
current point; `remaining` shrinks by `min maxStep remaining ≥
min 5 remaining` per iteration, so the fuel passed by
`clampTranslation` is never exhausted before the source loop's own exit
condition fires. -/
def clampLoop (st : OdomState) (ux uy maxStep : ℝ) :
    ℕ → ℝ × ℝ → ℝ × ℝ → ℝ → ℝ → ℝ × ℝ
  | 0, _, moved, _, _ => moved
  | fuel + 1, cur, moved, startClear, remaining =>
    if remaining > epsilonMm then
      let stepLen := min maxStep remaining
      let stepDx := ux * stepLen
      let stepDy := uy * stepLen
      let probe := (cur.1 + stepDx, cur.2 + stepDy)
      let probeClear := poseClearance st probe
      if acceptClearance startClear probeClear then
        clampLoop st ux uy maxStep fuel probe (moved.1 + stepDx, moved.2 + stepDy)
          probeClear (remaining - stepLen)
      else
        match trySlideStep st cur (stepDx, stepDy) probe startClear with
        | none => moved
        | some s =>
          let cur' := (cur.1 + s.1, cur.2 + s.2)
          clampLoop st ux uy maxStep fuel cur' (moved.1 + s.1, moved.2 + s.2)
            (poseClearance st cur') (remaining - stepLen)
    else moved

/-- `OdometryEstimator._clamp_translation_locked(desired, heading)`:
returns `(applied_dx, applied_dy, applied_signed_distance)`. -/
def clampTranslation (st : OdomState) (d heading : ℝ) : ℝ × ℝ × ℝ :=
  if |d| ≤ epsilonMm then (0, 0, 0)
  else if st.roomContour.length < 3 then
    (d * Real.cos heading, d * Real.sin heading, d)
  else
    let direction : ℝ := if 0 ≤ d then 1 else -1
    let distance := |d|
    let maxStep :=
      max 5 (min 20 (if 0 < st.robotRadius then st.robotRadius * (1/2) else 20))
    let ux := direction * Real.cos heading
    let uy := direction * Real.sin heading
    let moved := clampLoop st ux uy maxStep (⌈distance / 5⌉₊ + 1)
      (st.x, st.y) (0, 0) (poseClearance st (st.x, st.y)) distance
    let movedNorm := hypot moved.1 moved.2
    (moved.1, moved.2, if 0 ≤ direction then movedNorm else -movedNorm)

/-- The ring-by-ring spiral search of
`OdometryEstimator._snap_pose_to_valid_locked` (ring step 20 mm, angular
step 12°, 30 angles per ring); the source breaks at the first valid
probe of a ring and then leaves the ring loop, so the net effect is the
first valid probe in ring-then-angle order. -/
def snapSearch (st : OdomState) : Option (ℝ × ℝ) :=
  let maxRadius := max 300 (st.robotRadius * 3)
  let rings := (⌊maxRadius / 20⌋).toNat
  (List.range rings).findSome? fun ri =>
    let r := ((ri : ℝ) + 1) * 20
    (List.range 30).findSome? fun aj =>
      let ar := radians ((aj : ℝ) * 12)
      let cx := st.x + r * Real.cos ar
      let cy := st.y + r * Real.sin ar
      if isPoseValid st (cx, cy) then some (cx, cy) else none

/-- `OdometryEstimator._snap_pose_to_valid_locked`. -/
def snapPoseToValid (st : OdomState) : OdomState :=
  if st.roomContour.length < 3 then st
  else if isPoseValid st (st.x, st.y) then st
  else
    match snapSearch st with
    | some q => { st with x := q.1, y := q.2 }
    | none => st

/-- `OdometryEstimator.reset` (history emission not modelled). -/
def resetOdometry (st : OdomState) (x y thetaDeg : ℝ)
    (baseTotalDistance baseTotalAngle : Option ℝ)
    (baseLeft baseRight : Option ℤ) : OdomState :=
  let st1 := snapPoseToValid { st with x := x, y := y, theta := radians thetaDeg }
  { st1 with
    lastTotalDistance := baseTotalDistance
    lastTotalAngle := baseTotalAngle
    lastLeft := baseLeft.map (· % 65536)
    lastRight := baseRight.map (· % 65536)
    lastDeltaDistance := 0
    lastDeltaAngle := 0 }

/-- `OdometryEstimator._delta_encoder_counts` (`_ENCODER_MAX = 65536`). -/
def deltaEncoderCounts (previous current : ℤ) : ℤ :=
  (current - previous + 32768) % 65536 - 32768

/-- `OdometryEstimator._consume_encoder_wheels_mm_locked`: returns the
updated state and the per-wheel millimetre deltas. -/
def consumeEncoderWheels (st : OdomState) (l r : ℤ) : OdomState × ℝ × ℝ :=
  let lw := l % 65536
  let rw := r % 65536
  match st.lastLeft, st.lastRight with
  | some pl, some pr =>
    ({ st with lastLeft := some lw, lastRight := some rw },
     (deltaEncoderCounts pl lw : ℝ) * st.mmPerTick,
     (deltaEncoderCounts pr rw : ℝ) * st.mmPerTick)
  | _, _ => ({ st with lastLeft := some lw, lastRight := some rw }, 0, 0)

/-- `OdometryEstimator._consume_oi_angle_delta_locked`; the argument is
`none` when `"total_angle_deg"` is absent from the telemetry dict. -/
def consumeOiAngleDelta (st : OdomState) (totalAngle : Option ℝ) :
    OdomState × Option ℝ :=
  match totalAngle with
  | none => (st, none)
  | some total =>
    match st.lastTotalAngle with
    | none => ({ st with lastTotalAngle := some total }, none)
    | some prev => ({ st with lastTotalAngle := some total }, some (total - prev))

/-- `OdometryEstimator._update_from_encoders_locked`
(`_WHEEL_BASE_MM = 235.0`; history emission not modelled). -/
def updateFromEncoders (st : OdomState) (l r : ℤ)
    (bumpLeft bumpRight : Bool) (oiDeltaAngle : Option ℝ) : OdomState :=
  let step := consumeEncoderWheels st l r
  let st1 := step.1
  let dl := step.2.1
  let dr := step.2.2
  let d0 := ((dl + dr) * (1/2)) * st.linearScale
  let d := if (bumpLeft || bumpRight) && decide (0 < d0) then 0 else d0
  let angleDeg :=
    match oiDeltaAngle with
    | some oi => oi * st.angularScale
    | none => degrees ((dr - dl) / 235) * st.angularScale
  let theta1 := normAngle (st1.theta + radians angleDeg)
  let st2 := { st1 with theta := theta1 }
  let applied := clampTranslation st2 d theta1
  { st2 with
    x := st2.x + applied.1
    y := st2.y + applied.2.1
    lastDeltaDistance := applied.2.2
    lastDeltaAngle := angleDeg }

/-- The telemetry dict as read by `OdometryEstimator.update_from_telemetry`:
`none` models an absent key (a present falsy value collapses to `some 0`
through the source's `or 0.0`). -/
structure TelemetryIn where
  leftEncoderCounts : Option ℤ
  rightEncoderCounts : Option ℤ
  totalDistanceMm : Option ℝ
  totalAngleDeg : Option ℝ
  bumpLeft : Bool
  bumpRight : Bool

/-- `OdometryEstimator.update_from_telemetry` (returns the new state;
the snapshot dict it hands back is a projection of that state). -/
def updateFromTelemetry (st : OdomState) (tel : TelemetryIn) : OdomState :=
  let hasEncoders := tel.leftEncoderCounts.isSome && tel.rightEncoderCounts.isSome
  let useEncoders := st.source = "encoders" ∨ st.source = "auto" ∨
    st.source = "distance_angle"
  if useEncoders ∧ hasEncoders = true then
    let pre := if st.source = "distance_angle"
               then consumeOiAngleDelta st tel.totalAngleDeg
               else (st, none)
    updateFromEncoders pre.1 (tel.leftEncoderCounts.getD 0)
      (tel.rightEncoderCounts.getD 0) tel.bumpLeft tel.bumpRight pre.2
  else
    let totalD := tel.totalDistanceMm.getD 0
    let totalA := tel.totalAngleDeg.getD 0
    match st.lastTotalDistance, st.lastTotalAngle with
    | some prevD, some prevA =>
      let deltaD := (totalD - prevD) * st.linearScale
      let deltaA := (totalA - prevA) * st.angularScale
      let st1 := { st with
        lastTotalDistance := some totalD
        lastTotalAngle := some totalA
        lastDeltaDistance := deltaD
        lastDeltaAngle := deltaA }
      if deltaD ≠ 0 ∨ deltaA ≠ 0 then
        let dtheta := radians (deltaA * st.angularScale)
        let theta1 := normAngle (st1.theta + dtheta)
        let d := deltaD * st.linearScale
        let st2 := { st1 with theta := theta1 }
        let applied := clampTranslation st2 d theta1
        { st2 with
          x := st2.x + applied.1
          y := st2.y + applied.2.1
          lastDeltaDistance := applied.2.2
          lastDeltaAngle := degrees dtheta }
      else st1
    | _, _ =>
      { st with lastTotalDistance := some totalD, lastTotalAngle := some totalA }

/-- `OdometryEstimator.apply_external_pose` (history not modelled). -/
def applyExternalPose (st : OdomState) (x y thetaDeg blendPos blendTheta : ℝ) :
    OdomState :=
  let bp := max 0 (min 1 blendPos)
  let bt := max 0 (min 1 blendTheta)
  let x1 := st.x + (x - st.x) * bp
  let y1 := st.y + (y - st.y) * bp
  let currentThetaDeg := degrees st.theta
  let deltaThetaDeg := pymod (thetaDeg - currentThetaDeg + 180) 360 - 180
  let newThetaDeg := currentThetaDeg + deltaThetaDeg * bt
  let theta1 := normAngle (radians newThetaDeg)
  let st1 := snapPoseToValid { st with x := x1, y := y1, theta := theta1 }
  { st1 with lastDeltaDistance := 0, lastDeltaAngle := 0 }

/-- `OdometryEstimator()` built with the constructor defaults:
`source="encoders"`, `mm_per_tick = 0.445`, both scales 1, no collision
plan installed. -/
def initOdom : OdomState where
  x := 0
  y := 0
  theta := 0
  lastTotalDistance := none
  lastTotalAngle := none
  lastLeft := none
  lastRight := none
  lastDeltaDistance := 0
  lastDeltaAngle := 0
  source := "encoders"
  mmPerTick := 89 / 200
  linearScale := 1
  angularScale := 1
  roomContour := []
  obstaclePolygons := []
  robotRadius := 0

/-- The axis-aligned 1 m × 1 m test room used for the concrete
collision-clamp evaluations. -/
def sqContour : List (ℝ × ℝ) :=
  [(0, 0), (1000, 0), (1000, 1000), (0, 1000)]

/-- Estimator with the square room installed, robot radius 0, pose at
the room centre `(500, 500)` with heading 0. -/
def sqState : OdomState :=
  { initOdom with x := 500, y := 500, roomContour := sqContour }

/-- Estimator with `linear_scale = 2` and scalar baselines `(0, 0)`
installed, used to exhibit the double application of the calibration
scales in the scalar path. -/
def scaleTwoState : OdomState :=
  { initOdom with linearScale := 2, lastTotalDistance := some 0, lastTotalAngle := some 0 }

/-- A telemetry reading with only the scalar accumulators present:
`total_distance_mm = 100`, `total_angle_deg = 0`. -/
def scaleTwoTelemetry : TelemetryIn :=
  ⟨none, none, some 100, some 0, false, false⟩

end

/-! ## Helper lemmas (driver side) -/

/-- `_int16_bytes` in pure Euclidean arithmetic: for 16-bit-range inputs
it produces the big-endian bytes of the two's-complement residue. -/
theorem int16Bytes_formula (z : Int) (h1 : -65536 ≤ z) (h2 : z < 65536) :
    int16Bytes z = [z % 65536 / 256, z % 256] := by
  have hf : ∀ a : ℤ, a.fdiv 256 = a / 256 := fun a =>
    Int.fdiv_eq_ediv a (by norm_num)
  simp only [int16Bytes, hf]
  split_ifs with h <;> simp only [List.cons.injEq, and_true] <;> omega

/-- `applyPacketField` never touches the battery percentage. -/
theorem applyPacketField_batteryPct (packetId : Nat) (data : List Nat)
    (t : Telemetry) : (applyPacketField packetId data t).batteryPct = t.batteryPct := by
  unfold applyPacketField
  by_cases h : packetId = 7
  · rw [if_pos h]
  rw [if_neg h]
  by_cases h : packetId = 8
  · rw [if_pos h]
  rw [if_neg h]
  by_cases h : packetId = 9
  · rw [if_pos h]
  rw [if_neg h]
  by_cases h : packetId = 10
  · rw [if_pos h]
  rw [if_neg h]
  by_cases h : packetId = 11
  · rw [if_pos h]
  rw [if_neg h]
  by_cases h : packetId = 12
  · rw [if_pos h]
  rw [if_neg h]
  by_cases h : packetId = 19
  · rw [if_pos h]
  rw [if_neg h]
  by_cases h : packetId = 20
  · rw [if_pos h]
  rw [if_neg h]
  by_cases h : packetId = 21
  · rw [if_pos h]
  rw [if_neg h]
  by_cases h : packetId = 25
  · rw [if_pos h]
  rw [if_neg h]
  by_cases h : packetId = 26
  · rw [if_pos h]
  rw [if_neg h]
  by_cases h : packetId = 34
  · rw [if_pos h]
  rw [if_neg h]
  by_cases h : packetId = 43
  · rw [if_pos h]
  rw [if_neg h]
  by_cases h : packetId = 44
  · rw [if_pos h]
  rw [if_neg h]

/-- `batteryRecompute` never touches charge or capacity. -/
theorem batteryRecompute_charge_capacity (t : Telemetry) :
    (batteryRecompute t).batteryChargeMah = t.batteryChargeMah ∧
    (batteryRecompute t).batteryCapacityMah = t.batteryCapacityMah := by
  unfold batteryRecompute
  split_ifs <;> exact ⟨rfl, rfl⟩

/-- Unfolding lemma for one `while` iteration of
`_consume_stream_buffer` on a buffer with at least three bytes. -/
theorem consumeStreamBuffer_cons (b0 b1 b2 : Nat) (tl : List Nat) (t : Telemetry) :
    consumeStreamBuffer (b0 :: b1 :: b2 :: tl) t =
      if b0 ≠ 19 then consumeStreamBuffer (b1 :: b2 :: tl) t
      else if (b0 :: b1 :: b2 :: tl).length < b1 + 3 then (t, b0 :: b1 :: b2 :: tl)
      else if ((b0 :: b1 :: b2 :: tl).take (b1 + 3)).sum % 256 ≠ 0 then
        consumeStreamBuffer ((b0 :: b1 :: b2 :: tl).drop (b1 + 3)) t
      else
        consumeStreamBuffer ((b0 :: b1 :: b2 :: tl).drop (b1 + 3))
          (applyStreamPayload ((((b0 :: b1 :: b2 :: tl).take (b1 + 3)).drop 2).dropLast) t) := by
  rw [consumeStreamBuffer]

/-- `_apply_stream_payload` applies exactly the packets that
`parsePackets` decodes, in order. -/
theorem applyStreamPayloadAux_eq_foldl (fuel : Nat) :
    ∀ (payload : List Nat) (t : Telemetry),
      applyStreamPayloadAux fuel payload t =
        (parsePacketsAux fuel payload).foldl
          (fun s pk => applySensorPacket pk.1 pk.2 s) t := by
  induction fuel with
  | zero => intro payload t; cases payload <;> rfl
  | succ fuel ih =>
    intro payload t
    match payload with
    | [] => rfl
    | packetId :: rest =>
      simp only [applyStreamPayloadAux, parsePacketsAux]
      cases hs : packetSize packetId with
      | none => rfl
      | some size =>
        simp only
        split_ifs with hlen
        · rfl
        · rw [List.foldl_cons]
          exact ih (rest.drop size) _

/-- `_apply_stream_payload` applies exactly the packets that
`parsePackets` decodes, in order. -/
theorem applyStreamPayload_eq_foldl (payload : List Nat) (t : Telemetry) :
    applyStreamPayload payload t =
      (parsePackets payload).foldl (fun s pk => applySensorPacket pk.1 pk.2 s) t :=
  applyStreamPayloadAux_eq_foldl payload.length payload t

/-- Every element of a `scanl` is the fold of a prefix of the list. -/
theorem mem_scanl_eq_take_foldl {α β : Type} (f : β → α → β) :
    ∀ (l : List α) (b s : β), s ∈ l.scanl f b →
      ∃ k, k ≤ l.length ∧ s = (l.take k).foldl f b := by
  intro l
  induction l with
  | nil =>
    intro b s hs
    simp only [List.scanl_nil, List.mem_singleton] at hs
    exact ⟨0, by simp, by simp [hs]⟩
  | cons x xs ih =>
    intro b s hs
    rw [List.scanl_cons] at hs
    rcases List.mem_append.mp hs with h | h
    · simp only [List.mem_singleton] at h
      exact ⟨0, by simp, by simp [h]⟩
    · rcases ih (f b x) s h with ⟨k, hk, hsk⟩
      refine ⟨k + 1, by simpa using hk, ?_⟩
      simpa [List.take_succ_cons] using hsk

/-! ## Claim theorems (driver side) -/

/-- C2: the spec (and the repository's own test
`test_bumper_hard_stop_triggers_immediately_and_latches`) requires a
bump rising edge while driving forward to synthesize an immediate
`drive(0, straight)` and latch; the code has no such logic — no
`_last_drive_velocity` attribute exists anywhere in `roomba.py`, and
`_apply_sensor_packet` for packet 7 (data `0x01`, bump-right edge) only
rewrites the telemetry flag fields, sending nothing to the serial link.
This theorem evaluates the packet-7 handler at the failing input: the
entire effect is the flag update. -/
theorem claim_C2_bump_edge_only_updates_flags :
    applySensorPacket 7 [1] initTelemetry =
      { initTelemetry with bumpRight := true, bumper := true } := by
  rfl

/-- C4 counterexample: after frames installing `capacity = 3` then
`charge = 2`, the code stores `int(200 / 3) = 66`, but the claim's
`round(charge·100/capacity) = round(66.67) = 67`. -/
theorem claim_C4_counterexample :
    ((applySensorPacket 25 [0, 2]
        (applySensorPacket 26 [0, 3] initTelemetry)).batteryPct : ℤ) ≠
      round ((2 * 100 : ℚ) / 3) := by
  have h1 : (applySensorPacket 25 [0, 2]
      (applySensorPacket 26 [0, 3] initTelemetry)).batteryPct = 66 := by rfl
  have h2 : round ((2 * 100 : ℚ) / 3) = 67 := by norm_num [round_eq]
  rw [h1, h2]
  norm_num

/-- C4 (amended): after every sensor packet, `battery_pct ∈ [0, 100]`
(it is a `Nat`, so only the upper bound is stated); whenever the
resulting capacity is positive it equals the clamped **truncated**
quotient `min 100 (charge·100 / capacity)` (floor division, not
`round`); when the capacity is 0 the previous `battery_pct` is kept. -/
theorem claim_C4_amended (packetId : Nat) (data : List Nat) (t : Telemetry)
    (h : t.batteryPct ≤ 100) :
    (applySensorPacket packetId data t).batteryPct ≤ 100 ∧
    (0 < (applySensorPacket packetId data t).batteryCapacityMah →
      (applySensorPacket packetId data t).batteryPct =
        min 100 ((applySensorPacket packetId data t).batteryChargeMah * 100 /
          (applySensorPacket packetId data t).batteryCapacityMah)) ∧
    ((applySensorPacket packetId data t).batteryCapacityMah = 0 →
      (applySensorPacket packetId data t).batteryPct = t.batteryPct) := by
  unfold applySensorPacket
  have hpct := applyPacketField_batteryPct packetId data t
  set tf := applyPacketField packetId data t with htf
  by_cases hc : 0 < tf.batteryCapacityMah
  · have hres : batteryRecompute tf = { tf with
        batteryPct := max 0 (min 100 (tf.batteryChargeMah * 100 / tf.batteryCapacityMah)) } := by
      unfold batteryRecompute
      rw [if_pos hc]
    rw [hres]
    refine ⟨by simp, fun _ => by simp, fun h0 => ?_⟩
    exact absurd h0 (by simp; omega)
  · have hres : batteryRecompute tf = tf := by
      unfold batteryRecompute
      rw [if_neg hc]
    rw [hres]
    exact ⟨hpct ▸ h, fun hpos => absurd hpos hc, fun _ => hpct⟩

/-- C4 witness: the amended statement applied at packet 26 with data
`[0, 3]` on the initial telemetry. -/
theorem claim_C4_witness :
    (applySensorPacket 26 [0, 3] initTelemetry).batteryPct ≤ 100 ∧
    (0 < (applySensorPacket 26 [0, 3] initTelemetry).batteryCapacityMah →
      (applySensorPacket 26 [0, 3] initTelemetry).batteryPct =
        min 100 ((applySensorPacket 26 [0, 3] initTelemetry).batteryChargeMah * 100 /
          (applySensorPacket 26 [0, 3] initTelemetry).batteryCapacityMah)) ∧
    ((applySensorPacket 26 [0, 3] initTelemetry).batteryCapacityMah = 0 →
      (applySensorPacket 26 [0, 3] initTelemetry).batteryPct =
        initTelemetry.batteryPct) :=
  claim_C4_amended 26 [0, 3] initTelemetry (by decide)

/-- C5: a complete frame `[0x13, n, payload…, c]` whose bytes do not sum
to 0 modulo 256 is discarded without touching any telemetry field, and
parsing resumes right after it: consuming the buffer starting with the
bad frame equals consuming the remainder from the same state. -/
theorem claim_C5_bad_checksum_frame_discarded (n c : Nat)
    (payload rest : List Nat) (t : Telemetry)
    (hlen : payload.length = n)
    (hsum : (19 :: n :: (payload ++ [c])).sum % 256 ≠ 0) :
    consumeStreamBuffer ((19 :: n :: (payload ++ [c])) ++ rest) t =
      consumeStreamBuffer rest t := by
  have hfl : (19 :: n :: (payload ++ [c])).length = n + 3 := by
    simp [hlen]
  cases hE : payload ++ ([c] ++ rest) with
  | nil => exact absurd (congrArg List.length hE) (by simp)
  | cons b2 tl =>
    have hbuf : (19 :: n :: (payload ++ [c])) ++ rest = 19 :: n :: b2 :: tl := by
      rw [List.cons_append, List.cons_append, List.append_assoc, hE]
    have hlen3 : (19 :: n :: b2 :: tl).length = n + 3 + rest.length := by
      rw [← hbuf, List.length_append, hfl]
    have htake : (19 :: n :: b2 :: tl).take (n + 3) =
        19 :: n :: (payload ++ [c]) := by
      rw [← hbuf]
      exact List.take_left' hfl
    have hdrop : (19 :: n :: b2 :: tl).drop (n + 3) = rest := by
      rw [← hbuf]
      exact List.drop_left' hfl
    rw [hbuf, consumeStreamBuffer_cons]
    rw [if_neg (by simp)]
    rw [if_neg (by rw [hlen3]; omega)]
    rw [htake, hdrop]
    rw [if_pos hsum]

/-- C5 witness: the frame `[19, 1, 7, 0]` (sum 27 ≢ 0 mod 256) is
dropped and leaves the state to be whatever processing the empty
remainder gives. -/
theorem claim_C5_witness :
    consumeStreamBuffer [19, 1, 7, 0] initTelemetry =
      consumeStreamBuffer [] initTelemetry := by
  have h := claim_C5_bad_checksum_frame_discarded 1 0 [7] [] initTelemetry
    (by rfl) (by decide)
  simpa using h

/-- C6: the encoded drive command is opcode 137 followed by big-endian
16-bit two's-complement operands; velocity is clamped to `[-500, 500]`,
the special radii 32768, −1, 1 pass through unclamped, every other
radius is clamped to `[-2000, 2000]`. -/
theorem claim_C6_drive_encoding (velocity radius : Int) :
    driveCommand velocity radius =
      137 :: (max (-500) (min 500 velocity)) % 65536 / 256 ::
        (max (-500) (min 500 velocity)) % 256 ::
        (if radius = 32768 ∨ radius = -1 ∨ radius = 1 then radius
         else max (-2000) (min 2000 radius)) % 65536 / 256 ::
        [(if radius = 32768 ∨ radius = -1 ∨ radius = 1 then radius
          else max (-2000) (min 2000 radius)) % 256] := by
  have hv1 : (-500 : ℤ) ≤ max (-500) (min 500 velocity) := le_max_left _ _
  have hv2 : max (-500) (min 500 velocity) ≤ 500 :=
    max_le (by norm_num) (min_le_left _ _)
  simp only [driveCommand]
  rw [int16Bytes_formula _ (by omega) (by omega)]
  by_cases hr : radius = 32768 ∨ radius = -1 ∨ radius = 1
  · rw [if_pos hr,
      int16Bytes_formula _ (by rcases hr with h | h | h <;> omega)
        (by rcases hr with h | h | h <;> omega)]
    rfl
  · have hr1 : (-2000 : ℤ) ≤ max (-2000) (min 2000 radius) := le_max_left _ _
    have hr2 : max (-2000) (min 2000 radius) ≤ 2000 :=
      max_le (by norm_num) (min_le_left _ _)
    rw [if_neg hr,
      int16Bytes_formula _ (by omega) (by omega)]
    rfl

/-- C7: the dispatcher's bumper guard behaves exactly as the
specification enumerates it (refinement of `guardDrive` against the
spec-worded `guardSpec`). -/
theorem claim_C7_bumper_guard (bumpLeft bumpRight : Bool)
    (velocity radius : Int) :
    guardDrive bumpLeft bumpRight velocity radius =
      guardSpec bumpLeft bumpRight velocity radius := by
  cases bumpLeft <;> cases bumpRight <;>
    simp only [guardDrive, guardSpec, Bool.and_self, Bool.and_false,
      Bool.false_and, Bool.and_true, Bool.true_and] <;>
    split_ifs <;> first | rfl | tauto

/-- C9 counterexample: for the two-packet frame
`[25, charge_hi, charge_lo, 26, cap_hi, cap_lo]`, the state after only
the first packet is observable by a concurrent snapshot reader (the lock
is released between packets), yet differs from both the pre-frame and
the post-frame state — the claimed all-or-nothing visibility fails. -/
theorem claim_C9_counterexample :
    applySensorPacket 25 [1, 244] initTelemetry ∈
      observableStates [25, 1, 244, 26, 3, 232] initTelemetry ∧
    applySensorPacket 25 [1, 244] initTelemetry ≠ initTelemetry ∧
    applySensorPacket 25 [1, 244] initTelemetry ≠
      applyStreamPayload [25, 1, 244, 26, 3, 232] initTelemetry := by
  refine ⟨?_, ?_, ?_⟩ <;> decide

/-- C9 (amended): frame application equals the left fold of the decoded
packets, and a concurrent reader observes exactly the state after some
prefix of the frame's packets — each packet is individually atomic, but
the frame as a whole is not. -/
theorem claim_C9_amended :
    (∀ (payload : List Nat) (t : Telemetry),
        applyStreamPayload payload t =
          (parsePackets payload).foldl
            (fun s pk => applySensorPacket pk.1 pk.2 s) t) ∧
    (∀ (payload : List Nat) (t s : Telemetry),
        s ∈ observableStates payload t →
        ∃ k, k ≤ (parsePackets payload).length ∧
          s = ((parsePackets payload).take k).foldl
            (fun s pk => applySensorPacket pk.1 pk.2 s) t) :=
  ⟨applyStreamPayload_eq_foldl,
   fun payload t s hs => by
     unfold observableStates at hs
     exact mem_scanl_eq_take_foldl (fun s pk => applySensorPacket pk.1 pk.2 s)
       (parsePackets payload) t s hs⟩

/-- C9 witness: the amended statement applied to the concrete
two-packet frame and the mid-frame state. -/
theorem claim_C9_witness :
    ∃ k, k ≤ (parsePackets [25, 1, 244, 26, 3, 232]).length ∧
      applySensorPacket 25 [1, 244] initTelemetry =
        ((parsePackets [25, 1, 244, 26, 3, 232]).take k).foldl
          (fun s pk => applySensorPacket pk.1 pk.2 s) initTelemetry :=
  claim_C9_amended.2 [25, 1, 244, 26, 3, 232] initTelemetry
    (applySensorPacket 25 [1, 244] initTelemetry) (by decide)

/-! ## Helper lemmas (odometry side) -/

/-- Python's float `%` with a positive divisor is non-negative. -/
theorem pymod_nonneg (a m : ℝ) (hm : 0 < m) : 0 ≤ pymod a m := by
  unfold pymod
  have h1 : (⌊a / m⌋ : ℝ) ≤ a / m := Int.floor_le _
  have h2 : m * (⌊a / m⌋ : ℝ) ≤ m * (a / m) := mul_le_mul_of_nonneg_left h1 hm.le
  have h3 : m * (a / m) = a := by field_simp
  linarith

/-- Python's float `%` with a positive divisor is below the divisor. -/
theorem pymod_lt (a m : ℝ) (hm : 0 < m) : pymod a m < m := by
  unfold pymod
  have h1 : a / m < ⌊a / m⌋ + 1 := Int.lt_floor_add_one _
  have h2 : m * (a / m) < m * ((⌊a / m⌋ : ℝ) + 1) := (mul_lt_mul_left hm).mpr h1
  have h3 : m * (a / m) = a := by field_simp
  have h4 : m * ((⌊a / m⌋ : ℝ) + 1) = m * (⌊a / m⌋ : ℝ) + m := by ring
  linarith

/-- The source's normalization lands in `[-π, π)` — note the interval is
closed on the left and open on the right, not the other way around. -/
theorem normAngle_bounds (t : ℝ) :
    -Real.pi ≤ normAngle t ∧ normAngle t < Real.pi := by
  have hm : 0 < 2 * Real.pi := by positivity
  have h1 := pymod_nonneg (t + Real.pi) (2 * Real.pi) hm
  have h2 := pymod_lt (t + Real.pi) (2 * Real.pi) hm
  unfold normAngle
  constructor <;> linarith

theorem normAngle_zero : normAngle 0 = 0 := by
  unfold normAngle pymod
  rw [zero_add]
  have h1 : Real.pi / (2 * Real.pi) = 1 / 2 := by
    rw [eq_div_iff (by norm_num : (2:ℝ) ≠ 0)]
    field_simp
    ring
  rw [h1]
  rw [show ⌊(1 / 2 : ℝ)⌋ = 0 by norm_num]
  push_cast
  ring

theorem normAngle_four_pi : normAngle (4 * Real.pi) = 0 := by
  unfold normAngle pymod
  have h1 : (4 * Real.pi + Real.pi) / (2 * Real.pi) = 5 / 2 := by
    field_simp
    ring
  rw [h1]
  rw [show ⌊(5 / 2 : ℝ)⌋ = 2 by norm_num]
  push_cast
  ring

/-- The spiral pose-snap never touches the heading. -/
theorem snapPoseToValid_theta (st : OdomState) :
    (snapPoseToValid st).theta = st.theta := by
  unfold snapPoseToValid
  split_ifs with h1 h2
  · rfl
  · rfl
  · split <;> rfl

/-- `reset` stores `radians(theta_deg)` as the heading, without any
normalization. -/
theorem resetOdometry_theta (st : OdomState) (x y thetaDeg : ℝ)
    (bd ba : Option ℝ) (bl br : Option ℤ) :
    (resetOdometry st x y thetaDeg bd ba bl br).theta = radians thetaDeg := by
  simp only [resetOdometry]
  rw [snapPoseToValid_theta]

/-- A zero desired distance is clamped to a zero step. -/
theorem clampTranslation_zero (st : OdomState) (heading : ℝ) :
    clampTranslation st 0 heading = (0, 0, 0) := by
  unfold clampTranslation
  rw [if_pos (by rw [abs_zero]; unfold epsilonMm; norm_num)]

/-- Without an installed room contour the desired step passes through. -/
theorem clampTranslation_passthrough (st : OdomState) (d heading : ℝ)
    (hd : epsilonMm < |d|) (hc : st.roomContour.length < 3) :
    clampTranslation st d heading =
      (d * Real.cos heading, d * Real.sin heading, d) := by
  unfold clampTranslation
  rw [if_neg (not_le.mpr hd), if_pos hc]

/-- The encoder-integration step always stores a normalized heading. -/
theorem updateFromEncoders_theta (st : OdomState) (l r : ℤ) (bl br : Bool)
    (oi : Option ℝ) :
    ∃ v, (updateFromEncoders st l r bl br oi).theta = normAngle v :=
  ⟨_, rfl⟩

theorem updateFromEncoders_theta_bounds (st : OdomState) (l r : ℤ)
    (bl br : Bool) (oi : Option ℝ) :
    -Real.pi ≤ (updateFromEncoders st l r bl br oi).theta ∧
      (updateFromEncoders st l r bl br oi).theta < Real.pi := by
  obtain ⟨v, hv⟩ := updateFromEncoders_theta st l r bl br oi
  rw [hv]
  exact normAngle_bounds v

theorem applyExternalPose_theta_bounds (st : OdomState)
    (x y thetaDeg bp bt : ℝ) :
    -Real.pi ≤ (applyExternalPose st x y thetaDeg bp bt).theta ∧
      (applyExternalPose st x y thetaDeg bp bt).theta < Real.pi := by
  have h : (applyExternalPose st x y thetaDeg bp bt).theta =
      (snapPoseToValid { st with
        x := st.x + (x - st.x) * max 0 (min 1 bp),
        y := st.y + (y - st.y) * max 0 (min 1 bp),
        theta := normAngle (radians (degrees st.theta +
          (pymod (thetaDeg - degrees st.theta + 180) 360 - 180) *
            max 0 (min 1 bt))) }).theta := rfl
  rw [h, snapPoseToValid_theta]
  exact normAngle_bounds _

/-- First encoder reading with uninstalled baselines: the counts are
recorded (mod 65536), the wheel deltas are zero. -/
theorem consumeEncoderWheels_first (st : OdomState) (l r : ℤ)
    (hbase : st.lastLeft = none ∨ st.lastRight = none) :
    consumeEncoderWheels st l r =
      ({ st with lastLeft := some (l % 65536), lastRight := some (r % 65536) },
        0, 0) := by
  unfold consumeEncoderWheels
  rcases hbase with h | h
  · rw [h]
  · rw [h]
    cases st.lastLeft <;> rfl

/-- First encoder reading: only the baselines are recorded; `x` and `y`
are untouched and the heading is merely re-normalized. -/
theorem updateFromEncoders_first (st : OdomState) (l r : ℤ) (bl br : Bool)
    (hbase : st.lastLeft = none ∨ st.lastRight = none) :
    (updateFromEncoders st l r bl br none).x = st.x ∧
    (updateFromEncoders st l r bl br none).y = st.y ∧
    (updateFromEncoders st l r bl br none).theta = normAngle st.theta ∧
    (updateFromEncoders st l r bl br none).lastLeft = some (l % 65536) ∧
    (updateFromEncoders st l r bl br none).lastRight = some (r % 65536) := by
  have hcw := consumeEncoderWheels_first st l r hbase
  have hd0 : ((0 : ℝ) + 0) * (1 / 2) * st.linearScale = 0 := by ring
  have hang : degrees (((0 : ℝ) - 0) / 235) * st.angularScale = 0 := by
    unfold degrees
    ring
  have hrad0 : radians 0 = 0 := by
    unfold radians
    ring
  simp only [updateFromEncoders, hcw]
  rw [hd0, ite_self, hang, hrad0, add_zero, clampTranslation_zero]
  refine ⟨?_, ?_, ?_, ?_, ?_⟩
  · exact add_zero st.x
  · exact add_zero st.y
  · rfl
  · trivial
  · trivial

/-- With `source = "encoders"` and both counts present, the update
takes the encoder path with no OI angle override. -/
theorem updateFromTelemetry_encoders_src (st : OdomState) (tel : TelemetryIn)
    (l r : ℤ) (hsrc : st.source = "encoders")
    (hl : tel.leftEncoderCounts = some l)
    (hr : tel.rightEncoderCounts = some r) :
    updateFromTelemetry st tel =
      updateFromEncoders st l r tel.bumpLeft tel.bumpRight none := by
  simp only [updateFromTelemetry]
  rw [if_pos ⟨Or.inl hsrc, by rw [hl, hr]; rfl⟩]
  rw [if_neg (by rw [hsrc]; decide)]
  rw [hl, hr]
  rfl

/-- Scalar path, first reading: the whole state change is recording the
two accumulator baselines. -/
theorem updateFromTelemetry_scalar_first (st : OdomState) (tel : TelemetryIn)
    (hcond : ¬((st.source = "encoders" ∨ st.source = "auto" ∨
        st.source = "distance_angle") ∧
      (tel.leftEncoderCounts.isSome && tel.rightEncoderCounts.isSome) = true))
    (hbase : st.lastTotalDistance = none ∨ st.lastTotalAngle = none) :
    updateFromTelemetry st tel = { st with
      lastTotalDistance := some (tel.totalDistanceMm.getD 0),
      lastTotalAngle := some (tel.totalAngleDeg.getD 0) } := by
  simp only [updateFromTelemetry]
  rw [if_neg hcond]
  rcases hbase with h | h
  · rw [h]
  · rw [h]
    cases st.lastTotalDistance <;> rfl

/-- Scalar path with installed baselines, a non-degenerate delta and no
collision geometry: the calibration scales are applied **twice** — the
heading moves by `radians(Δangle · angular_scale²)` and the translation
is `Δdistance · linear_scale²` along the new heading. -/
theorem updateFromTelemetry_scalar_active (st : OdomState) (tel : TelemetryIn)
    (prevD prevA : ℝ)
    (hcond : ¬((st.source = "encoders" ∨ st.source = "auto" ∨
        st.source = "distance_angle") ∧
      (tel.leftEncoderCounts.isSome && tel.rightEncoderCounts.isSome) = true))
    (hd : st.lastTotalDistance = some prevD)
    (ha : st.lastTotalAngle = some prevA)
    (hnz : (tel.totalDistanceMm.getD 0 - prevD) * st.linearScale ≠ 0 ∨
           (tel.totalAngleDeg.getD 0 - prevA) * st.angularScale ≠ 0)
    (hcontour : st.roomContour.length < 3)
    (hbig : epsilonMm <
      |(tel.totalDistanceMm.getD 0 - prevD) * st.linearScale * st.linearScale|) :
    (updateFromTelemetry st tel).theta =
      normAngle (st.theta + radians
        ((tel.totalAngleDeg.getD 0 - prevA) * st.angularScale * st.angularScale)) ∧
    (updateFromTelemetry st tel).x = st.x +
      (tel.totalDistanceMm.getD 0 - prevD) * st.linearScale * st.linearScale *
        Real.cos (normAngle (st.theta + radians
          ((tel.totalAngleDeg.getD 0 - prevA) * st.angularScale * st.angularScale))) ∧
    (updateFromTelemetry st tel).y = st.y +
      (tel.totalDistanceMm.getD 0 - prevD) * st.linearScale * st.linearScale *
        Real.sin (normAngle (st.theta + radians
          ((tel.totalAngleDeg.getD 0 - prevA) * st.angularScale * st.angularScale))) := by
  simp only [updateFromTelemetry]
  rw [if_neg hcond, hd, ha]
  simp only
  rw [if_pos hnz]
  rw [clampTranslation_passthrough]
  · exact ⟨rfl, rfl, rfl⟩
  · exact hbig
  · exact hcontour

/-! ## Claim theorems (odometry side, except C1) -/

/-- C3 counterexample: `reset(0, 0, theta_deg=360)` stores
`radians(360) = 2π`, which is **not** in `(-π, π]` — `reset` performs no
angle normalization at all. -/
theorem claim_C3_counterexample :
    ¬(-Real.pi < (resetOdometry initOdom 0 0 360 none none none none).theta ∧
      (resetOdometry initOdom 0 0 360 none none none none).theta ≤ Real.pi) := by
  rw [resetOdometry_theta]
  rintro ⟨h1, h2⟩
  rw [show radians 360 = 2 * Real.pi by unfold radians; ring] at h2
  have := Real.pi_pos
  linarith

/-- C3 (amended): `reset` stores `radians(theta_deg)` unnormalized;
`update_from_telemetry` either leaves the heading untouched or
normalizes it into the half-open interval `[-π, π)` (not `(-π, π]`);
`apply_external_pose` always leaves the heading in `[-π, π)`. -/
theorem claim_C3_amended :
    (∀ (st : OdomState) (x y thetaDeg : ℝ) (bd ba : Option ℝ)
        (bl br : Option ℤ),
      (resetOdometry st x y thetaDeg bd ba bl br).theta = radians thetaDeg) ∧
    (∀ (st : OdomState) (tel : TelemetryIn),
      (updateFromTelemetry st tel).theta = st.theta ∨
        (-Real.pi ≤ (updateFromTelemetry st tel).theta ∧
          (updateFromTelemetry st tel).theta < Real.pi)) ∧
    (∀ (st : OdomState) (x y thetaDeg bp bt : ℝ),
      -Real.pi ≤ (applyExternalPose st x y thetaDeg bp bt).theta ∧
        (applyExternalPose st x y thetaDeg bp bt).theta < Real.pi) := by
  refine ⟨resetOdometry_theta, ?_, applyExternalPose_theta_bounds⟩
  intro st tel
  simp only [updateFromTelemetry]
  by_cases h : (st.source = "encoders" ∨ st.source = "auto" ∨
      st.source = "distance_angle") ∧
    (tel.leftEncoderCounts.isSome && tel.rightEncoderCounts.isSome) = true
  · rw [if_pos h]
    right
    exact updateFromEncoders_theta_bounds _ _ _ _ _ _
  · rw [if_neg h]
    rcases hD : st.lastTotalDistance with _ | prevD
    · left
      rfl
    · rcases hA : st.lastTotalAngle with _ | prevA
      · left
        rfl
      · simp only
        split_ifs with hnz
        · right
          exact normAngle_bounds _
        · left
          rfl

/-- C10 (amended): with the relevant baselines uninstalled, the first
reading only records baselines; `x` and `y` are exactly unchanged, and
in the encoder path the heading is replaced by its normalization (so it
is unchanged whenever it was already in `[-π, π)`); the scalar path
changes nothing but the two accumulator baselines. -/
theorem claim_C10_amended :
    (∀ (st : OdomState) (tel : TelemetryIn) (l r : ℤ),
      (st.source = "encoders" ∨ st.source = "auto" ∨
        st.source = "distance_angle") →
      tel.leftEncoderCounts = some l →
      tel.rightEncoderCounts = some r →
      (st.lastLeft = none ∨ st.lastRight = none) →
      (st.source = "distance_angle" →
        st.lastTotalAngle = none ∨ tel.totalAngleDeg = none) →
      (updateFromTelemetry st tel).x = st.x ∧
      (updateFromTelemetry st tel).y = st.y ∧
      (updateFromTelemetry st tel).theta = normAngle st.theta ∧
      (updateFromTelemetry st tel).lastLeft = some (l % 65536) ∧
      (updateFromTelemetry st tel).lastRight = some (r % 65536)) ∧
    (∀ (st : OdomState) (tel : TelemetryIn),
      ¬((st.source = "encoders" ∨ st.source = "auto" ∨
          st.source = "distance_angle") ∧
        (tel.leftEncoderCounts.isSome && tel.rightEncoderCounts.isSome) = true) →
      (st.lastTotalDistance = none ∨ st.lastTotalAngle = none) →
      updateFromTelemetry st tel = { st with
        lastTotalDistance := some (tel.totalDistanceMm.getD 0),
        lastTotalAngle := some (tel.totalAngleDeg.getD 0) }) := by
  constructor
  · intro st tel l r hsrc hl hr hbase hda
    simp only [updateFromTelemetry]
    rw [if_pos ⟨hsrc, by rw [hl, hr]; rfl⟩]
    by_cases hds : st.source = "distance_angle"
    · rw [if_pos hds]
      rcases hda hds with hta | hta
      · cases htel : tel.totalAngleDeg with
        | none =>
          have h := updateFromEncoders_first st l r tel.bumpLeft tel.bumpRight hbase
          simpa [consumeOiAngleDelta, hl, hr] using h
        | some v =>
          have h2 : consumeOiAngleDelta st (some v) =
              ({ st with lastTotalAngle := some v }, none) := by
            unfold consumeOiAngleDelta
            rw [hta]
          rw [h2]
          have h := updateFromEncoders_first { st with lastTotalAngle := some v }
            l r tel.bumpLeft tel.bumpRight (by simpa using hbase)
          simpa [hl, hr] using h
      · rw [hta]
        have h := updateFromEncoders_first st l r tel.bumpLeft tel.bumpRight hbase
        simpa [consumeOiAngleDelta, hl, hr] using h

    · rw [if_neg hds]
      have h := updateFromEncoders_first st l r tel.bumpLeft tel.bumpRight hbase
      simpa [hl, hr] using h
  · exact updateFromTelemetry_scalar_first

/-- C10 counterexample: the claim fails for a heading outside `[-π, π)`
(reachable because `reset` does not normalize): from
`reset(0, 0, theta_deg=720)` the first encoder reading leaves `x`, `y`
and the baselines as claimed but **changes** theta from `4π` to `0`. -/
theorem claim_C10_counterexample :
    (resetOdometry initOdom 0 0 720 none none none none).lastLeft = none ∧
    (resetOdometry initOdom 0 0 720 none none none none).lastRight = none ∧
    (updateFromTelemetry (resetOdometry initOdom 0 0 720 none none none none)
        ⟨some 1000, some 1000, none, none, false, false⟩).theta ≠
      (resetOdometry initOdom 0 0 720 none none none none).theta := by
  refine ⟨rfl, rfl, ?_⟩
  rw [updateFromTelemetry_encoders_src
    (resetOdometry initOdom 0 0 720 none none none none)
    ⟨some 1000, some 1000, none, none, false, false⟩ 1000 1000 rfl rfl rfl]
  show (updateFromEncoders (resetOdometry initOdom 0 0 720 none none none none)
      1000 1000 false false none).theta ≠
    (resetOdometry initOdom 0 0 720 none none none none).theta
  rw [(updateFromEncoders_first (resetOdometry initOdom 0 0 720 none none none none)
    1000 1000 false false (Or.inl rfl)).2.2.1]
  rw [resetOdometry_theta]
  rw [show radians 720 = 4 * Real.pi by unfold radians; ring]
  rw [normAngle_four_pi]
  intro h3
  have := Real.pi_pos
  linarith

/-- C10 witness: the amended statement applied to a fresh estimator and
its first encoder reading `(1000, 1000)`. -/
theorem claim_C10_witness :
    (updateFromTelemetry initOdom
        ⟨some 1000, some 1000, none, none, false, false⟩).x = initOdom.x ∧
    (updateFromTelemetry initOdom
        ⟨some 1000, some 1000, none, none, false, false⟩).y = initOdom.y ∧
    (updateFromTelemetry initOdom
        ⟨some 1000, some 1000, none, none, false, false⟩).theta =
      normAngle initOdom.theta ∧
    (updateFromTelemetry initOdom
        ⟨some 1000, some 1000, none, none, false, false⟩).lastLeft =
      some (1000 % 65536) ∧
    (updateFromTelemetry initOdom
        ⟨some 1000, some 1000, none, none, false, false⟩).lastRight =
      some (1000 % 65536) :=
  claim_C10_amended.1 initOdom ⟨some 1000, some 1000, none, none, false, false⟩
    1000 1000 (Or.inl rfl) rfl rfl (Or.inl rfl) (fun _ => Or.inl rfl)

/-- C8 (amended): in the scalar integration path the calibration scales
are applied **twice**, not once: with baselines `(prevD, prevA)`
installed, a non-degenerate step and no collision geometry, the heading
advances by `radians(Δangle · angular_scale²)` and the pose moves by
`Δdistance · linear_scale²` along the new heading, where
`Δdistance = total_distance_mm − prevD` and
`Δangle = total_angle_deg − prevA`. -/
theorem claim_C8_amended (st : OdomState) (tel : TelemetryIn)
    (prevD prevA : ℝ)
    (hcond : ¬((st.source = "encoders" ∨ st.source = "auto" ∨
        st.source = "distance_angle") ∧
      (tel.leftEncoderCounts.isSome && tel.rightEncoderCounts.isSome) = true))
    (hd : st.lastTotalDistance = some prevD)
    (ha : st.lastTotalAngle = some prevA)
    (hnz : (tel.totalDistanceMm.getD 0 - prevD) * st.linearScale ≠ 0 ∨
           (tel.totalAngleDeg.getD 0 - prevA) * st.angularScale ≠ 0)
    (hcontour : st.roomContour.length < 3)
    (hbig : epsilonMm <
      |(tel.totalDistanceMm.getD 0 - prevD) * st.linearScale * st.linearScale|) :
    (updateFromTelemetry st tel).theta =
      normAngle (st.theta + radians
        ((tel.totalAngleDeg.getD 0 - prevA) * st.angularScale * st.angularScale)) ∧
    (updateFromTelemetry st tel).x = st.x +
      (tel.totalDistanceMm.getD 0 - prevD) * st.linearScale * st.linearScale *
        Real.cos (normAngle (st.theta + radians
          ((tel.totalAngleDeg.getD 0 - prevA) * st.angularScale * st.angularScale))) ∧
    (updateFromTelemetry st tel).y = st.y +
      (tel.totalDistanceMm.getD 0 - prevD) * st.linearScale * st.linearScale *
        Real.sin (normAngle (st.theta + radians
          ((tel.totalAngleDeg.getD 0 - prevA) * st.angularScale * st.angularScale))) :=
  updateFromTelemetry_scalar_active st tel prevD prevA hcond hd ha hnz hcontour hbig

/-- C8 counterexample: with `linear_scale = 2` and a 100 mm distance
delta, the pose moves by `100·2² = 400` mm, not the `100·2 = 200` mm the
claim's "multiplied by `linear_scale` exactly once" demands. -/
theorem claim_C8_counterexample :
    (updateFromTelemetry scaleTwoState scaleTwoTelemetry).theta = 0 ∧
    (updateFromTelemetry scaleTwoState scaleTwoTelemetry).x = 400 ∧
    (updateFromTelemetry scaleTwoState scaleTwoTelemetry).x ≠
      (100 * 2) * Real.cos ((updateFromTelemetry scaleTwoState scaleTwoTelemetry).theta) := by
  have h := updateFromTelemetry_scalar_active scaleTwoState scaleTwoTelemetry 0 0
    (fun hx => absurd hx.2 (by decide))
    rfl rfl
    (Or.inl (by show ((100:ℝ) - 0) * 2 ≠ 0; norm_num))
    (by decide)
    (by show epsilonMm < |((100:ℝ) - 0) * 2 * 2|
        unfold epsilonMm
        rw [show ((100:ℝ) - 0) * 2 * 2 = 400 by ring, abs_of_pos (by norm_num)]
        norm_num)
  obtain ⟨hth, hx, _⟩ := h
  have harg : scaleTwoState.theta +
      radians ((scaleTwoTelemetry.totalAngleDeg.getD 0 - 0) *
        scaleTwoState.angularScale * scaleTwoState.angularScale) = 0 := by
    show (0:ℝ) + radians (((0:ℝ) - 0) * 1 * 1) = 0
    unfold radians
    ring
  rw [harg, normAngle_zero] at hth hx
  refine ⟨hth, ?_, ?_⟩
  · rw [hx]
    show (0:ℝ) + ((100:ℝ) - 0) * 2 * 2 * Real.cos 0 = 400
    rw [Real.cos_zero]
    ring
  · rw [hx, hth]
    rw [Real.cos_zero]
    show (0:ℝ) + ((100:ℝ) - 0) * 2 * 2 * 1 ≠ 100 * 2 * 1
    norm_num

/-- C8 witness: the amended statement applied at the `linear_scale = 2`
state and the 100 mm scalar delta. -/
theorem claim_C8_witness :
    (updateFromTelemetry scaleTwoState scaleTwoTelemetry).theta =
      normAngle (scaleTwoState.theta + radians
        ((scaleTwoTelemetry.totalAngleDeg.getD 0 - 0) *
          scaleTwoState.angularScale * scaleTwoState.angularScale)) ∧
    (updateFromTelemetry scaleTwoState scaleTwoTelemetry).x =
      scaleTwoState.x +
        (scaleTwoTelemetry.totalDistanceMm.getD 0 - 0) *
          scaleTwoState.linearScale * scaleTwoState.linearScale *
          Real.cos (normAngle (scaleTwoState.theta + radians
            ((scaleTwoTelemetry.totalAngleDeg.getD 0 - 0) *
              scaleTwoState.angularScale * scaleTwoState.angularScale))) ∧
    (updateFromTelemetry scaleTwoState scaleTwoTelemetry).y =
      scaleTwoState.y +
        (scaleTwoTelemetry.totalDistanceMm.getD 0 - 0) *
          scaleTwoState.linearScale * scaleTwoState.linearScale *
          Real.sin (normAngle (scaleTwoState.theta + radians
            ((scaleTwoTelemetry.totalAngleDeg.getD 0 - 0) *
              scaleTwoState.angularScale * scaleTwoState.angularScale))) :=
  claim_C8_amended scaleTwoState scaleTwoTelemetry 0 0
    (fun hx => absurd hx.2 (by decide))
    rfl rfl
    (Or.inl (by show ((100:ℝ) - 0) * 2 ≠ 0; norm_num))
    (by decide)
    (by show epsilonMm < |((100:ℝ) - 0) * 2 * 2|
        unfold epsilonMm
        rw [show ((100:ℝ) - 0) * 2 * 2 = 400 by ring, abs_of_pos (by norm_num)]
        norm_num)

/-! ## Concrete geometry evaluation for the square room (claim C1) -/

theorem hypot_eval (a b v : ℝ) (hv : 0 ≤ v) (hsq : a ^ 2 + b ^ 2 = v ^ 2) :
    hypot a b = v := by
  unfold hypot
  rw [hsq, Real.sqrt_sq hv]

/-- Evaluation scheme for `segDist` when the foot of the perpendicular
is interior (so the `t` clamp is the identity). -/
theorem segDist_eval (p a b : ℝ × ℝ) (t v : ℝ)
    (hden : ¬((b.1 - a.1) * (b.1 - a.1) + (b.2 - a.2) * (b.2 - a.2) ≤ epsilonMm))
    (ht : max 0 (min 1 (((p.1 - a.1) * (b.1 - a.1) + (p.2 - a.2) * (b.2 - a.2)) /
      ((b.1 - a.1) * (b.1 - a.1) + (b.2 - a.2) * (b.2 - a.2)))) = t)
    (hv : 0 ≤ v)
    (hsq : (p.1 - (a.1 + t * (b.1 - a.1))) ^ 2 +
      (p.2 - (a.2 + t * (b.2 - a.2))) ^ 2 = v ^ 2) :
    segDist p a b = v := by
  unfold segDist
  rw [if_neg hden, ht]
  exact hypot_eval _ _ _ hv hsq

/-- A point is not on a segment as soon as the (positive) cross product
exceeds the `1e-3` tolerance. -/
theorem pointOnSegment_false (p a b : ℝ × ℝ)
    (h : 1 / 1000 < (b.1 - a.1) * (p.2 - a.2) - (b.2 - a.2) * (p.1 - a.1)) :
    pointOnSegment p a b = false := by
  unfold pointOnSegment
  rw [if_pos (lt_of_lt_of_le h (le_abs_self _))]

theorem edgePairs_sq : edgePairs sqContour =
    [((0, 0), (1000, 0)), ((1000, 0), (1000, 1000)),
     ((1000, 1000), (0, 1000)), ((0, 1000), (0, 0))] := rfl

/-- Points `(px, 500)` with `1 ≤ px ≤ 999` are inside the square room
under the crossing-number rule. -/
theorem pointInPolygon_sq (px : ℝ) (h0 : 1 ≤ px) (h1 : px ≤ 999) :
    pointInPolygon (px, 500) sqContour = true := by
  have hon1 : pointOnSegment (px, 500) (0, 0) (1000, 0) = false :=
    pointOnSegment_false _ _ _ (by norm_num)
  have hon2 : pointOnSegment (px, 500) (1000, 0) (1000, 1000) = false :=
    pointOnSegment_false _ _ _ (by ring_nf; linarith)
  have hon3 : pointOnSegment (px, 500) (1000, 1000) (0, 1000) = false :=
    pointOnSegment_false _ _ _ (by norm_num)
  have hon4 : pointOnSegment (px, 500) (0, 1000) (0, 0) = false :=
    pointOnSegment_false _ _ _ (by ring_nf; linarith)
  have hd1 : decide ((0 : ℝ) > 500) = false := decide_eq_false (by norm_num)
  have hd2 : decide ((1000 : ℝ) > 500) = true := decide_eq_true (by norm_num)
  have hd2x : decide (px < ((1000 : ℝ) - 1000) * (500 - 0) /
      ((1000 - 0) + epsilonMm) + 1000) = true := by
    refine decide_eq_true ?_
    have hval : ((1000 : ℝ) - 1000) * (500 - 0) / ((1000 - 0) + epsilonMm) + 1000 =
        1000 := by
      unfold epsilonMm
      norm_num
    rw [hval]
    linarith
  have hd4x : decide (px < ((0 : ℝ) - 0) * (500 - 1000) /
      ((0 - 1000) + epsilonMm) + 0) = false := by
    refine decide_eq_false ?_
    have hval : ((0 : ℝ) - 0) * (500 - 1000) / ((0 - 1000) + epsilonMm) + 0 =
        0 := by
      unfold epsilonMm
      norm_num
    rw [hval]
    linarith
  have hb1 : (false != false) = false := rfl
  have hb2 : (false != true) = true := rfl
  have hb3 : (true != true) = false := rfl
  have hb4 : (true != false) = true := rfl
  unfold pointInPolygon
  rw [if_neg (by norm_num [sqContour])]
  rw [edgePairs_sq]
  simp only [pipAux, hon1, hon2, hon3, hon4, hd1, hd2, hd2x, hd4x,
    hb1, hb2, hb3, hb4, Bool.false_eq_true, if_false, Bool.false_and,
    Bool.true_and, Bool.and_false, Bool.and_true, Bool.not_false,
    Bool.not_true, if_true, if_false, eq_self_iff_true]

theorem distToPolyEdges_sq_center : distToPolyEdges (500, 500) sqContour = 500 := by
  have hs1 : segDist (500, 500) (0, 0) (1000, 0) = 500 :=
    segDist_eval _ _ _ (1 / 2) 500 (by unfold epsilonMm; norm_num)
      (by rw [show (((500 : ℝ) - 0) * (1000 - 0) + (500 - 0) * (0 - 0)) /
          ((1000 - 0) * (1000 - 0) + (0 - 0) * (0 - 0)) = 1 / 2 by norm_num,
        min_eq_right (by norm_num), max_eq_right (by norm_num)])
      (by norm_num) (by norm_num)
  have hs2 : segDist (500, 500) (1000, 0) (1000, 1000) = 500 :=
    segDist_eval _ _ _ (1 / 2) 500 (by unfold epsilonMm; norm_num)
      (by rw [show (((500 : ℝ) - 1000) * (1000 - 1000) + (500 - 0) * (1000 - 0)) /
          ((1000 - 1000) * (1000 - 1000) + (1000 - 0) * (1000 - 0)) = 1 / 2 by norm_num,
        min_eq_right (by norm_num), max_eq_right (by norm_num)])
      (by norm_num) (by norm_num)
  have hs3 : segDist (500, 500) (1000, 1000) (0, 1000) = 500 :=
    segDist_eval _ _ _ (1 / 2) 500 (by unfold epsilonMm; norm_num)
      (by rw [show (((500 : ℝ) - 1000) * (0 - 1000) + (500 - 1000) * (1000 - 1000)) /
          ((0 - 1000) * (0 - 1000) + (1000 - 1000) * (1000 - 1000)) = 1 / 2 by norm_num,
        min_eq_right (by norm_num), max_eq_right (by norm_num)])
      (by norm_num) (by norm_num)
  have hs4 : segDist (500, 500) (0, 1000) (0, 0) = 500 :=
    segDist_eval _ _ _ (1 / 2) 500 (by unfold epsilonMm; norm_num)
      (by rw [show (((500 : ℝ) - 0) * (0 - 0) + (500 - 1000) * (0 - 1000)) /
          ((0 - 0) * (0 - 0) + (0 - 1000) * (0 - 1000)) = 1 / 2 by norm_num,
        min_eq_right (by norm_num), max_eq_right (by norm_num)])
      (by norm_num) (by norm_num)
  unfold distToPolyEdges
  rw [if_neg (by norm_num [sqContour])]
  rw [edgePairs_sq]
  simp only [List.map]
  rw [hs1, hs2, hs3, hs4]
  unfold minList
  simp [min_self]

theorem distToPolyEdges_sq_probe : distToPolyEdges (520, 500) sqContour = 480 := by
  have hs1 : segDist (520, 500) (0, 0) (1000, 0) = 500 :=
    segDist_eval _ _ _ (13 / 25) 500 (by unfold epsilonMm; norm_num)
      (by rw [show (((520 : ℝ) - 0) * (1000 - 0) + (500 - 0) * (0 - 0)) /
          ((1000 - 0) * (1000 - 0) + (0 - 0) * (0 - 0)) = 13 / 25 by norm_num,
        min_eq_right (by norm_num), max_eq_right (by norm_num)])
      (by norm_num) (by norm_num)
  have hs2 : segDist (520, 500) (1000, 0) (1000, 1000) = 480 :=
    segDist_eval _ _ _ (1 / 2) 480 (by unfold epsilonMm; norm_num)
      (by rw [show (((520 : ℝ) - 1000) * (1000 - 1000) + (500 - 0) * (1000 - 0)) /
          ((1000 - 1000) * (1000 - 1000) + (1000 - 0) * (1000 - 0)) = 1 / 2 by norm_num,
        min_eq_right (by norm_num), max_eq_right (by norm_num)])
      (by norm_num) (by norm_num)
  have hs3 : segDist (520, 500) (1000, 1000) (0, 1000) = 500 :=
    segDist_eval _ _ _ (12 / 25) 500 (by unfold epsilonMm; norm_num)
      (by rw [show (((520 : ℝ) - 1000) * (0 - 1000) + (500 - 1000) * (1000 - 1000)) /
          ((0 - 1000) * (0 - 1000) + (1000 - 1000) * (1000 - 1000)) = 12 / 25 by norm_num,
        min_eq_right (by norm_num), max_eq_right (by norm_num)])
      (by norm_num) (by norm_num)
  have hs4 : segDist (520, 500) (0, 1000) (0, 0) = 520 :=
    segDist_eval _ _ _ (1 / 2) 520 (by unfold epsilonMm; norm_num)
      (by rw [show (((520 : ℝ) - 0) * (0 - 0) + (500 - 1000) * (0 - 1000)) /
          ((0 - 0) * (0 - 0) + (0 - 1000) * (0 - 1000)) = 1 / 2 by norm_num,
        min_eq_right (by norm_num), max_eq_right (by norm_num)])
      (by norm_num) (by norm_num)
  unfold distToPolyEdges
  rw [if_neg (by norm_num [sqContour])]
  rw [edgePairs_sq]
  simp only [List.map]
  rw [hs1, hs2, hs3, hs4]
  unfold minList
  simp only [List.foldl]
  rw [min_eq_right (by norm_num : (480 : ℝ) ≤ 500),
    min_eq_left (by norm_num : (480 : ℝ) ≤ 500),
    min_eq_left (by norm_num : (480 : ℝ) ≤ 520)]

/-- Clearance of the square-room state at an interior point with no
obstacles: edge distance minus the (zero) radius. -/
theorem poseClearance_sq (p : ℝ × ℝ) (d : ℝ)
    (hpip : pointInPolygon p sqContour = true)
    (hdist : distToPolyEdges p sqContour = d) :
    poseClearance sqState p = d := by
  unfold poseClearance
  rw [show sqState.roomContour = sqContour from rfl,
    show sqState.obstaclePolygons = ([] : List (List (ℝ × ℝ))) from rfl,
    show sqState.robotRadius = (0 : ℝ) from rfl]
  rw [if_neg (by norm_num [sqContour])]
  rw [hdist, hpip]
  simp

theorem poseClearance_sq_center : poseClearance sqState (500, 500) = 500 :=
  poseClearance_sq _ _ (pointInPolygon_sq 500 (by norm_num) (by norm_num))
    distToPolyEdges_sq_center

theorem poseClearance_sq_probe : poseClearance sqState (520, 500) = 480 :=
  poseClearance_sq _ _ (pointInPolygon_sq 520 (by norm_num) (by norm_num))
    distToPolyEdges_sq_probe

/-! ## The clamp loop preserves non-negative clearance (claim C1) -/

theorem acceptClearance_nonneg {s c : ℝ} (hs : 0 ≤ s)
    (h : acceptClearance s c = true) : 0 ≤ c := by
  unfold acceptClearance at h
  rw [if_pos hs] at h
  exact of_decide_eq_true h

/-- Any candidate returned by the slide-scale search satisfies the
clearance acceptance rule. -/
theorem slideScales_accept (st : OdomState) (base : ℝ × ℝ)
    (startClear tx ty tangentStep : ℝ) :
    ∀ (scales : List ℝ) (res : ℝ × ℝ),
      slideScales st base startClear tx ty tangentStep scales = some res →
      acceptClearance startClear
        (poseClearance st (base.1 + res.1, base.2 + res.2)) = true := by
  intro scales
  induction scales with
  | nil =>
    intro res h
    exact absurd h (by simp [slideScales])
  | cons sc rest ih =>
    intro res h
    simp only [slideScales] at h
    split_ifs at h with hacc
    · cases h
      exact hacc
    · exact ih res h

/-- Any step returned by `_try_slide_step_locked` satisfies the
clearance acceptance rule at the base point. -/
theorem trySlideStep_accept (st : OdomState) (base step probe : ℝ × ℝ)
    (startClear : ℝ) (res : ℝ × ℝ)
    (h : trySlideStep st base step probe startClear = some res) :
    acceptClearance startClear
      (poseClearance st (base.1 + res.1, base.2 + res.2)) = true := by
  unfold trySlideStep at h
  rcases hedge : (match nearestCollisionEdge st probe with
      | some e => some e
      | none => nearestCollisionEdge st base) with _ | e
  · rw [hedge] at h
    exact Option.noConfusion h
  · rw [hedge] at h
    simp only at h
    split_ifs at h with h1 h2
    exact slideScales_accept st base startClear _ _ _ _ res h

/-- Loop invariant of `_clamp_translation_locked`: if the clearance at
the current point is non-negative, it stays non-negative at the point
reached by the loop (the carried `start_clearance` always equals the
clearance of the current point). -/
theorem clampLoop_clearance (st : OdomState) (ux uy maxStep : ℝ) :
    ∀ (fuel : ℕ) (cur moved : ℝ × ℝ) (sc remaining : ℝ),
      sc = poseClearance st cur → 0 ≤ sc →
      cur = (st.x + moved.1, st.y + moved.2) →
      0 ≤ poseClearance st
        (st.x + (clampLoop st ux uy maxStep fuel cur moved sc remaining).1,
         st.y + (clampLoop st ux uy maxStep fuel cur moved sc remaining).2) := by
  intro fuel
  induction fuel with
  | zero =>
    intro cur moved sc remaining hsc hpos hcur
    simp only [clampLoop]
    rw [show (st.x + moved.1, st.y + moved.2) = cur from hcur.symm]
    rw [← hsc]
    exact hpos
  | succ fuel ih =>
    intro cur moved sc remaining hsc hpos hcur
    simp only [clampLoop]
    split_ifs with hrem hacc
    · refine ih _ _ _ _ rfl (acceptClearance_nonneg hpos hacc) ?_
      rw [hcur]
      refine Prod.ext ?_ ?_
      · show (st.x + moved.1) + _ = st.x + (moved.1 + _)
        ring
      · show (st.y + moved.2) + _ = st.y + (moved.2 + _)
        ring
    · split
      · rw [show (st.x + moved.1, st.y + moved.2) = cur from hcur.symm]
        rw [← hsc]
        exact hpos
      · rename_i s heq
        refine ih _ _ _ _ rfl
          (acceptClearance_nonneg hpos (trySlideStep_accept st cur _ _ sc s heq)) ?_
        rw [hcur]
        refine Prod.ext ?_ ?_
        · show (st.x + moved.1) + _ = st.x + (moved.1 + _)
          ring
        · show (st.y + moved.2) + _ = st.y + (moved.2 + _)
          ring
    · rw [show (st.x + moved.1, st.y + moved.2) = cur from hcur.symm]
      rw [← hsc]
      exact hpos

/-- C1 (amended): with a collision geometry installed (room contour with
at least 3 points) and a non-negative starting clearance, the applied
`(dx, dy)` leaves the pose at a point whose signed clearance is still
non-negative.  (The claimed lower bound `start − 2 mm` does not hold —
see the counterexample — because for non-negative starting clearance the
acceptance rule only demands the candidate clearance stay ≥ 0.) -/
theorem claim_C1_amended (st : OdomState) (d heading : ℝ)
    (hc : 3 ≤ st.roomContour.length)
    (h0 : 0 ≤ poseClearance st (st.x, st.y)) :
    0 ≤ poseClearance st
      (st.x + (clampTranslation st d heading).1,
       st.y + (clampTranslation st d heading).2.1) := by
  unfold clampTranslation
  split_ifs with h1 h2 h3 h4
  · simpa using h0
  · omega
  · exact clampLoop_clearance st (1 * Real.cos heading) (1 * Real.sin heading)
      (max 5 (min 20 (st.robotRadius * (1 / 2)))) (⌈|d| / 5⌉₊ + 1)
      (st.x, st.y) (0, 0) (poseClearance st (st.x, st.y)) |d| rfl h0 (by simp)
  · exact clampLoop_clearance st (1 * Real.cos heading) (1 * Real.sin heading)
      (max 5 (min 20 20)) (⌈|d| / 5⌉₊ + 1)
      (st.x, st.y) (0, 0) (poseClearance st (st.x, st.y)) |d| rfl h0 (by simp)
  · exact clampLoop_clearance st (-1 * Real.cos heading) (-1 * Real.sin heading)
      (max 5 (min 20 (st.robotRadius * (1 / 2)))) (⌈|d| / 5⌉₊ + 1)
      (st.x, st.y) (0, 0) (poseClearance st (st.x, st.y)) |d| rfl h0 (by simp)
  · exact clampLoop_clearance st (-1 * Real.cos heading) (-1 * Real.sin heading)
      (max 5 (min 20 20)) (⌈|d| / 5⌉₊ + 1)
      (st.x, st.y) (0, 0) (poseClearance st (st.x, st.y)) |d| rfl h0 (by simp)

/-- The acceptance test of the single 20 mm step from the room centre:
start clearance 500, probe clearance 480 ≥ 0. -/
theorem acceptClearance_sq_step :
    acceptClearance 500 (poseClearance sqState (520, 500)) = true := by
  rw [poseClearance_sq_probe]
  unfold acceptClearance
  rw [if_pos (by norm_num : (0 : ℝ) ≤ 500)]
  exact decide_eq_true (by norm_num)

/-- Concrete run of the clamp loop from `(500, 500)` with unit heading
`(1, 0)`, max step 20 and desired distance 20: one accepted full step. -/
theorem clampLoop_sq_eval (f : ℕ) :
    clampLoop sqState 1 0 20 (f + 2) (500, 500) (0, 0) 500 20 = (20, 0) := by
  show clampLoop sqState 1 0 20 ((f + 1) + 1) (500, 500) (0, 0) 500 20 = (20, 0)
  simp only [clampLoop]
  rw [if_pos (by unfold epsilonMm; norm_num : (20 : ℝ) > epsilonMm)]
  rw [min_self]
  rw [show (1 : ℝ) * 20 = 20 by norm_num, show (0 : ℝ) * 20 = 0 by norm_num,
    show (500 : ℝ) + 20 = 520 by norm_num, show (500 : ℝ) + 0 = 500 by norm_num,
    show (0 : ℝ) + 20 = 20 by norm_num, show (0 : ℝ) + 0 = 0 by norm_num,
    show (20 : ℝ) - 20 = 0 by norm_num]
  rw [if_pos acceptClearance_sq_step]
  rw [if_neg (by unfold epsilonMm; norm_num : ¬((0 : ℝ) > epsilonMm))]

/-- Concrete evaluation of the translation clamp in the square room:
from the centre `(500, 500)` with heading 0 a desired 20 mm step is
applied in full. -/
theorem clampTranslation_sq_eval : clampTranslation sqState 20 0 = (20, 0, 20) := by
  simp only [clampTranslation]
  rw [if_neg (by unfold epsilonMm; norm_num : ¬(|(20 : ℝ)| ≤ epsilonMm))]
  rw [if_neg (by norm_num [sqState, sqContour] : ¬(sqState.roomContour.length < 3))]
  rw [if_pos (by norm_num : (0 : ℝ) ≤ 20)]
  rw [if_neg (by norm_num [sqState, initOdom] : ¬((0 : ℝ) < sqState.robotRadius))]
  rw [min_self, show max (5 : ℝ) 20 = 20 by norm_num]
  rw [Real.cos_zero, Real.sin_zero]
  rw [show (1 : ℝ) * 1 = 1 by norm_num, show (1 : ℝ) * 0 = 0 by norm_num]
  rw [show |(20 : ℝ)| = 20 from abs_of_pos (by norm_num)]
  rw [show (20 : ℝ) / 5 = ((4 : ℕ) : ℝ) by norm_num, Nat.ceil_natCast]
  rw [show ((sqState.x, sqState.y) : ℝ × ℝ) = ((500 : ℝ), (500 : ℝ)) from rfl]
  rw [poseClearance_sq_center]
  rw [show (4 + 1 : ℕ) = 3 + 2 from rfl, clampLoop_sq_eval 3]
  show ((20 : ℝ), (0 : ℝ), if (0 : ℝ) ≤ 1 then hypot 20 0 else -hypot 20 0) = (20, 0, 20)
  rw [if_pos (by norm_num : (0 : ℝ) ≤ 1)]
  rw [hypot_eval 20 0 20 (by norm_num) (by norm_num)]

/-- C1 counterexample: in the square room, a 20 mm step from the centre
is applied in full, and the clearance at the applied pose (480 mm) is
strictly below the starting clearance minus 2 mm (500 − 2 = 498 mm), so
the claimed lower bound `start − 2 mm` fails. -/
theorem claim_C1_counterexample :
    3 ≤ sqState.roomContour.length ∧
    clampTranslation sqState 20 0 = (20, 0, 20) ∧
    poseClearance sqState
        (sqState.x + (clampTranslation sqState 20 0).1,
         sqState.y + (clampTranslation sqState 20 0).2.1) <
      poseClearance sqState (sqState.x, sqState.y) - 2 := by
  refine ⟨by norm_num [sqState, sqContour], clampTranslation_sq_eval, ?_⟩
  rw [clampTranslation_sq_eval]
  rw [show ((sqState.x + ((20 : ℝ), (0 : ℝ), (20 : ℝ)).1,
      sqState.y + ((20 : ℝ), (0 : ℝ), (20 : ℝ)).2.1) : ℝ × ℝ) =
      ((520 : ℝ), (500 : ℝ)) by norm_num [sqState, initOdom]]
  rw [show ((sqState.x, sqState.y) : ℝ × ℝ) = ((500 : ℝ), (500 : ℝ)) from rfl]
  rw [poseClearance_sq_probe, poseClearance_sq_center]
  norm_num

/-- Witness for the amended C1 theorem at the square room, desired
distance 20 mm, heading 0. -/
theorem claim_C1_witness :
    3 ≤ sqState.roomContour.length ∧
    0 ≤ poseClearance sqState (sqState.x, sqState.y) ∧
    0 ≤ poseClearance sqState
      (sqState.x + (clampTranslation sqState 20 0).1,
       sqState.y + (clampTranslation sqState 20 0).2.1) := by
  have hc : 3 ≤ sqState.roomContour.length := by norm_num [sqState, sqContour]
  have h0 : 0 ≤ poseClearance sqState (sqState.x, sqState.y) := by
    rw [show ((sqState.x, sqState.y) : ℝ × ℝ) = ((500 : ℝ), (500 : ℝ)) from rfl,
      poseClearance_sq_center]
    norm_num
  exact ⟨hc, h0, claim_C1_amended sqState 20 0 hc h0⟩
